import Mathlib

/-!
Verification of the forex-backtesting optimization engine against its
natural-language specification.

Shallow embedding of `src/lib/optimizers/optimizer.cpp` (the C++ Optimizer),
`src/unnamed/part_000` (the ReversalsCombined strategy, JavaScript) and
`src/unnamed/part_001` (the Base strategy, JavaScript).  Machine doubles are
modelled as rationals, C++ integers as Int/Nat (no arithmetic here comes near
an overflow boundary), std::map / JS objects as association lists.
-/

namespace ForexBacktesting

/-! ## Data loading (`Optimizer::loadData`, optimizer.cpp lines 182-270)

A persisted row is modelled by its `data` subdocument in field-iteration
order: a list of (field name, double value) pairs.  The count query and the
find query run over the same collection and symbol, so the count result
equals the number of rows streamed; `mongoc_collection_count` reports -1 only
on a driver error, which has no counterpart when loading from a concrete row
list, hence the count here is always the (non-negative) row count. -/

/-- One persisted row: the `data` subdocument, in field-iteration order. -/
abbrev LoadRow := List (String × ℚ)

/-- The `dataIndex` member: std::map from field name to column position. -/
abbrev DataIndex := List (String × Int)

/-- Mutable state accumulated by the row-loading loop: the `dataIndex` map and
the row-major `data` matrix. -/
structure LoadState where
  dataIndex : DataIndex := []
  data : List (List ℚ) := []
deriving DecidableEq

/-- Body of the cursor loop (optimizer.cpp lines 224-261) for one document:
store each property value at the next `propertyIndex`, and -- only when
`this->dataCount == 0` -- record (name, propertyIndex) in `dataIndex`.
`dataCount` here is the member set from the count query before the loop. -/
def loadRow (dataCount : Int) (st : LoadState) (row : LoadRow) : LoadState :=
  let folded := row.foldl
    (fun (acc : List ℚ × DataIndex × Int) nv =>
      ( acc.1 ++ [nv.2],
        if dataCount = 0 then acc.2.1 ++ [(nv.1, acc.2.2)] else acc.2.1,
        acc.2.2 + 1))
    ([], st.dataIndex, 0)
  { dataIndex := folded.2.1, data := st.data ++ [folded.1] }

/-- `Optimizer::loadData`: count the rows for the symbol, fail when the count
is negative (the source's line 207 guard, whose error path corresponds to a
driver failure returning -1), then stream the rows through `loadRow`. -/
def loadData (rows : List LoadRow) : Except String LoadState :=
  let dataCount : Int := rows.length
  if dataCount < 0 then Except.error "no data points found"
  else Except.ok (rows.foldl (loadRow dataCount) {})

/-! ## Ingestion (`Optimizer::prepareData`, optimizer.cpp lines 71-169)

Only the persistence behaviour matters for the claims: a tick is modelled by
its timestamp (the studies merge indicator fields into the tick in place,
which does not move it between batches).  `savedBatches` records, in order,
every vector passed to `saveTicks`. -/

/-- State of the ingestion loop: the in-memory window `cumulativeTicks` and
the batches handed to `saveTicks` so far. -/
structure PrepareState where
  cumulativeTicks : List Int := []
  savedBatches : List (List Int) := []
deriving DecidableEq

/-- One iteration of the ingestion loop for a tick with the given timestamp:
gap check against the window's last tick (flush and clear the window when the
gap exceeds 60), append the tick, then size-based eviction at the 2000
high-water mark (persist all but the last 1000 and keep those 1000). -/
def prepareTickStep (st : PrepareState) (tick : Int) : PrepareState :=
  let afterGap : PrepareState :=
    match st.cumulativeTicks.getLast? with
    | some prev =>
        if tick - prev > 60 then
          { cumulativeTicks := ([] : List Int),
            savedBatches := st.savedBatches ++ [st.cumulativeTicks] }
        else st
    | none => st
  let cum := afterGap.cumulativeTicks ++ [tick]
  if cum.length ≥ 2000 then
    { cumulativeTicks := cum.drop (cum.length - 1000),
      savedBatches := afterGap.savedBatches ++ [cum.take (cum.length - 1000)] }
  else { afterGap with cumulativeTicks := cum }

/-- `Optimizer::prepareData` over a finite tick sequence: fold the loop body.
After the loop the source only prints a newline; the remaining window is not
flushed. -/
def prepareData (ticks : List Int) : PrepareState :=
  ticks.foldl prepareTickStep {}

/-- All ticks ever passed to `saveTicks` during `prepareData`, in order. -/
def persistedTicks (ticks : List Int) : List Int :=
  (prepareData ticks).savedBatches.flatten

/-! ## The optimization row loop (`Optimizer::optimize`, lines 401-418)

The loop is `for (i=0; i<dataCount; i++)`, whose body backtests `data[i]` for
every strategy and then computes the progress display as
`percentage = (++i / (double)dataCount) * 100.0` -- a pre-increment of the
loop counter itself.  The embedding returns the sequence of row indices whose
backtests are submitted. -/

/-- Row indices processed from counter value `i` on: each iteration processes
row `i`, then the progress line's `++i` and the for-update's `i++` together
advance the counter by two. -/
def optimizeRowsFrom (dataCount i : Nat) : List Nat :=
  if _h : i < dataCount then i :: optimizeRowsFrom dataCount (i + 2) else []
termination_by dataCount - i

/-- The row indices whose data the optimize loop backtests, in order. -/
def optimizeProcessedRows (dataCount : Nat) : List Nat :=
  optimizeRowsFrom dataCount 0

/-! ## Configuration building (`Optimizer::buildMapConfigurations` /
`Optimizer::buildConfigurations`, optimizer.cpp lines 272-379)

An option value is a boost::variant<std::string, double>: a symbolic column
name or a numeric literal.  A candidate assignment is one
std::map<std::string, variant> in iteration order; an axis
(`ConfigurationOption`) is the ordered vector of its candidates.  The
`options` argument is a std::map from axis name to axis; `allKeys` collects
its keys in iteration order and the recursion walks `allKeys[optionIndex]`,
i.e. the axes in map-iteration order, which the embedding passes directly as
a list.

Crucially, the source threads ONE `MapConfiguration*` (`current`, allocated
once by the top-level call's default argument) through the whole recursion
and executes `results->push_back(current)` at every leaf: every element of
`results` is the same pointer, so once the recursion returns, each element
dereferences to the final contents of that single map.  The embedding
therefore returns the number of push_backs together with the final map, and
`buildConfigurations` materializes `count` copies of that one final map. -/

/-- A configuration option value: a column-name reference or a literal. -/
abbrev OptionValue := String ⊕ ℚ

/-- One candidate field assignment (a std::map in iteration order). -/
abbrev Candidate := List (String × OptionValue)

/-- One axis: the ordered sequence of its candidate assignments. -/
abbrev ConfigurationOption := List Candidate

/-- A value stored in a `MapConfiguration`: boost::variant<int, double>
(resolved column index, or literal). -/
abbrev MapValue := Int ⊕ ℚ

/-- The `MapConfiguration` map from field name to stored value. -/
abbrev MapConfiguration := List (String × MapValue)

/-- `this->dataIndex[name]` (std::map::operator[]): the stored index, or --
for a missing key -- the value-initialized default 0.  (operator[] also
inserts the defaulted entry; later reads of that key still see 0, so the
embedding returns the defaulted value without tracking the insertion.) -/
def dataIndexAt (idx : DataIndex) (name : String) : Int :=
  (idx.lookup name).getD 0

/-- `(*current)[key] = value`: replace an existing binding or add one. -/
def mapConfigSet (m : MapConfiguration) (key : String) (v : MapValue) : MapConfiguration :=
  if (m.lookup key).isSome then
    m.map (fun kv => if kv.1 = key then (key, v) else kv)
  else m ++ [(key, v)]

/-- The inner values loop (optimizer.cpp lines 292-299): write every field of
one candidate into `current`, resolving string values through
`this->dataIndex` and copying doubles verbatim. -/
def applyCandidate (idx : DataIndex) (current : MapConfiguration) (cand : Candidate) : MapConfiguration :=
  cand.foldl
    (fun cur kv =>
      match kv.2 with
      | Sum.inl colName => mapConfigSet cur kv.1 (Sum.inl (dataIndexAt idx colName))
      | Sum.inr d => mapConfigSet cur kv.1 (Sum.inr d))
    current

/-- `Optimizer::buildMapConfigurations`: recursion over the axes (the
key-ordered entries of `options`).  For each candidate of the current axis it
writes the candidate into the shared `current` map, then either recurses into
the next axis or -- at the last axis -- pushes the shared pointer, counted
here as `+1`.  Returns (number of push_backs, final contents of the shared
map).  An empty axis list corresponds to `allKeys[0]` indexing an empty
vector in the source (undefined behaviour); the embedding returns no
configurations there, and the theorems below avoid that case. -/
def buildMapConfigurations (idx : DataIndex) (axes : List ConfigurationOption)
    (current : MapConfiguration) : ℕ × MapConfiguration :=
  match axes with
  | [] => (0, current)
  | axis :: rest =>
    axis.foldl
      (fun acc cand =>
        let cur := applyCandidate idx acc.2 cand
        match rest with
        | [] => (acc.1 + 1, cur)
        | r1 :: rs =>
          let r := buildMapConfigurations idx (r1 :: rs) cur
          (acc.1 + r.1, r.2))
      (0, current)

/-- The `Configuration` struct materialized by `buildConfigurations`.  Its
definition lives in the repository's header, which is not under src/; the
fields and their types are those read and written in optimizer.cpp lines
319-374, and a field the map does not provide is modelled as `none` (the
source leaves it at the header's initial value).  `open` is a Lean keyword,
so that field is named `openIdx`. -/
structure Configuration where
  timestamp : Int
  openIdx : Int
  high : Int
  low : Int
  close : Int
  sma13 : Option Int := none
  ema50 : Option Int := none
  ema100 : Option Int := none
  ema200 : Option Int := none
  rsi : Option Int := none
  stochasticD : Option Int := none
  stochasticK : Option Int := none
  prChannelUpper : Option Int := none
  prChannelLower : Option Int := none
  rsiOverbought : Option ℚ := none
  rsiOversold : Option ℚ := none
  stochasticOverbought : Option ℚ := none
  stochasticOversold : Option ℚ := none
deriving DecidableEq

/-- boost::get<int> on a stored map value (the source throws on a
double-typed value; none of the inputs used here exercise that). -/
def getIntValue : MapValue → Option Int
  | Sum.inl n => some n
  | Sum.inr _ => none

/-- boost::get<double> on a stored map value. -/
def getRatValue : MapValue → Option ℚ
  | Sum.inl _ => none
  | Sum.inr d => some d

/-- Conversion of one map representation into a `Configuration` struct
(optimizer.cpp lines 321-373): the five basic column positions come from
`this->dataIndex` via operator[], and each optional field is set only when
the map holds it. -/
def toConfiguration (idx : DataIndex) (m : MapConfiguration) : Configuration :=
  { timestamp := dataIndexAt idx "timestamp"
    openIdx := dataIndexAt idx "open"
    high := dataIndexAt idx "high"
    low := dataIndexAt idx "low"
    close := dataIndexAt idx "close"
    sma13 := (m.lookup "sma13").bind getIntValue
    ema50 := (m.lookup "ema50").bind getIntValue
    ema100 := (m.lookup "ema100").bind getIntValue
    ema200 := (m.lookup "ema200").bind getIntValue
    rsi := (m.lookup "rsi").bind getIntValue
    stochasticD := (m.lookup "stochasticD").bind getIntValue
    stochasticK := (m.lookup "stochasticK").bind getIntValue
    prChannelUpper := (m.lookup "prChannelUpper").bind getIntValue
    prChannelLower := (m.lookup "prChannelLower").bind getIntValue
    rsiOverbought := (m.lookup "rsiOverbought").bind getRatValue
    rsiOversold := (m.lookup "rsiOversold").bind getRatValue
    stochasticOverbought := (m.lookup "stochasticOverbought").bind getRatValue
    stochasticOversold := (m.lookup "stochasticOversold").bind getRatValue }

/-- `Optimizer::buildConfigurations`: run the recursion from a fresh empty
results vector and a fresh empty shared map (the default arguments of the
single-argument call at line 316), then convert each stored pointer.  Every
stored pointer aliases the one shared map, so each conversion sees its final
contents. -/
def buildConfigurations (idx : DataIndex) (axes : List ConfigurationOption) : List Configuration :=
  let r := buildMapConfigurations idx axes []
  List.replicate r.1 (toConfiguration idx r.2)

/-! ## Strategy preparation (`Optimizer::optimize`, lines 381-398)

`std::vector<Strategy*> strategies;` is default-constructed empty, and the
loop executes `strategies[i] = OptimizationStrategyFactory::create(...)` for
`i = 0, 1, ...` -- `operator[]` on an out-of-range index is undefined
behaviour, modelled as `none`.  The factory is an external collaborator; a
prepared strategy instance is modelled by the configuration it wraps. -/

/-- `std::vector::operator[]` assignment: in range replaces the element,
out of range is undefined behaviour (`none`). -/
def vectorSet (v : List Configuration) (i : ℕ) (x : Configuration) : Option (List Configuration) :=
  if i < v.length then some (v.set i x) else none

/-- The strategy-preparation loop from index `i` with the current contents of
the `strategies` vector. -/
def prepareStrategiesFrom : List Configuration → ℕ → List Configuration → Option (List Configuration)
  | [], _, strategies => some strategies
  | c :: rest, i, strategies =>
    match vectorSet strategies i c with
    | some s => prepareStrategiesFrom rest (i + 1) s
    | none => none

/-- The strategy-preparation loop of `Optimizer::optimize`: one
`strategies[i] = create(...)` per configuration, starting from the
default-constructed empty vector. -/
def prepareStrategies (configurations : List Configuration) : Option (List Configuration) :=
  prepareStrategiesFrom configurations 0 []

/-! ## Base strategy state (`src/unnamed/part_001`)

The mutable per-strategy counters of the JavaScript `Base` constructor, with
doubles as rationals. -/

/-- The per-strategy accumulator fields set up by the `Base` constructor. -/
structure StrategyState where
  profitLoss : ℚ := 0
  winCount : ℕ := 0
  loseCount : ℕ := 0
  consecutiveLosses : ℕ := 0
  maximumConsecutiveLosses : ℕ := 0
  minimumProfitLoss : ℚ := 99999
deriving DecidableEq

/-- `Base.prototype.getWinRate` (part_001 lines 44-49): 0 when no trades
occurred, otherwise winCount / (winCount + loseCount). -/
def getWinRate (s : StrategyState) : ℚ :=
  if s.winCount + s.loseCount = 0 then 0
  else (s.winCount : ℚ) / ((s.winCount : ℚ) + (s.loseCount : ℚ))

/-- The result summary object returned by `Base.prototype.getResults`. -/
structure StrategyResults where
  profitLoss : ℚ
  winCount : ℕ
  loseCount : ℕ
  winRate : ℚ
  tradeCount : ℕ
  maximumConsecutiveLosses : ℕ
  minimumProfitLoss : ℚ
deriving DecidableEq

/-- `Base.prototype.getResults` (part_001 lines 59-69). -/
def getResults (s : StrategyState) : StrategyResults :=
  { profitLoss := s.profitLoss
    winCount := s.winCount
    loseCount := s.loseCount
    winRate := getWinRate s
    tradeCount := s.winCount + s.loseCount
    maximumConsecutiveLosses := s.maximumConsecutiveLosses
    minimumProfitLoss := s.minimumProfitLoss }

/-- Modelled from the spec: the Position collaborator (the Call/Put classes
are not under src/).  Per the spec's Position interface, a position exposes
`getInvestment()`, `getProfitLoss()` once closed, and
`getHasExpired(timestamp)`; the model carries the investment, the
profit/loss the position reports at settlement, and whether it counts as
expired at the settlement call being analysed. -/
structure Position where
  investment : ℚ
  profitLoss : ℚ
  expired : Bool
deriving DecidableEq

/-- The body of the `Base.prototype.closeExpiredPositions` loop (part_001
lines 85-122) for one open position: when it has expired, subtract the
investment and add the settlement profit/loss to the running profit/loss,
increment winCount only when profitLoss strictly exceeds the investment,
increment loseCount only when profitLoss is exactly 0, and update the
minimum-profit/loss and maximum-consecutive-losses watermarks. -/
def closePositionStep (s : StrategyState) (p : Position) : StrategyState :=
  if p.expired then
    let pl := p.profitLoss
    let s1 : StrategyState := { s with profitLoss := s.profitLoss - p.investment + pl }
    let s2 : StrategyState :=
      if pl > p.investment then
        { s1 with winCount := s1.winCount + 1, consecutiveLosses := 0 }
      else s1
    let s3 : StrategyState :=
      if pl = 0 then
        { s2 with loseCount := s2.loseCount + 1,
                  consecutiveLosses := s2.consecutiveLosses + 1 }
      else s2
    let s4 : StrategyState :=
      if pl < s3.minimumProfitLoss then { s3 with minimumProfitLoss := pl } else s3
    if s4.consecutiveLosses > s4.maximumConsecutiveLosses then
      { s4 with maximumConsecutiveLosses := s4.consecutiveLosses }
    else s4
  else s

/-- `Base.prototype.closeExpiredPositions`: iterate over (a copy of) the open
positions, settling each expired one.  (The source's `splice(index, 1)`
removal mutates only the open-position list, not the counters analysed
here.) -/
def closeExpiredPositions (s : StrategyState) (openPositions : List Position) : StrategyState :=
  openPositions.foldl closePositionStep s

/-! ## ReversalsCombined signal logic (`src/unnamed/part_000`)

One data point is a JavaScript object: a timestamp plus numeric fields
(indicator fields may be absent when a study lacked history).  JavaScript
truthiness on a numeric field is false exactly for `undefined` and `0`.
`Date#getHours` is local-time; it is modelled as the UTC hour of the
epoch-millisecond timestamp -- the claims quantify over the hour filter
uniformly, so the timezone offset does not affect them. -/

/-- One enriched data point: timestamp (epoch milliseconds) and its numeric
fields by name. -/
structure DataPoint where
  timestamp : Int
  fields : List (String × ℚ)
deriving DecidableEq

/-- `dataPoint[name]`: the field's value, or `none` for `undefined`. -/
def dpField (d : DataPoint) (name : String) : Option ℚ :=
  d.fields.lookup name

/-- JavaScript truthiness of a possibly-absent numeric field. -/
def jsTruthy : Option ℚ → Bool
  | none => false
  | some x => x != 0

/-- The numeric value of a field; only consulted under a truthiness guard,
so the `undefined` default is never reached on the source's paths. -/
def dpVal (d : DataPoint) (name : String) : ℚ :=
  (dpField d name).getD 0

/-- `new Date(timestamp).getHours()`, modelled as UTC hours. -/
def getHours (timestamp : Int) : Int :=
  timestamp / 3600000 % 24

/-- The `configuration.rsi` subobject: study output name and thresholds. -/
structure RsiConfiguration where
  rsi : String
  overbought : ℚ
  oversold : ℚ
deriving DecidableEq

/-- The `configuration.prChannel` subobject: upper/lower band field names. -/
structure PrChannelConfiguration where
  upper : String
  lower : String
deriving DecidableEq

/-- The `configuration.trendPrChannel` subobject: regression field name. -/
structure TrendPrChannelConfiguration where
  regression : String
deriving DecidableEq

/-- One ReversalsCombined configuration: truthiness of the four moving-average
gates and the three optional subobjects. -/
structure JsConfiguration where
  ema200 : Bool := false
  ema100 : Bool := false
  ema50 : Bool := false
  sma13 : Bool := false
  rsi : Option RsiConfiguration := none
  prChannel : Option PrChannelConfiguration := none
  trendPrChannel : Option TrendPrChannelConfiguration := none
deriving DecidableEq

/-- One moving-average pair block (part_000 lines 125-140, 141-156, 157-172):
when both configuration gates are truthy, missing data disables both sides;
`v1 < v2` disables the put side ("a downtrend is not occurring") and
`v1 > v2` disables the call side. -/
def emaPairGate (gate1 gate2 : Bool) (v1 v2 : Option ℚ) (pc : Bool × Bool) : Bool × Bool :=
  if gate1 && gate2 then
    let pc1 := if !jsTruthy v1 || !jsTruthy v2 then (false, false) else pc
    let put := if pc1.1 && decide (v1.getD 0 < v2.getD 0) then false else pc1.1
    let call := if pc1.2 && decide (v1.getD 0 > v2.getD 0) then false else pc1.2
    (put, call)
  else pc

/-- The RSI block (part_000 lines 173-189). -/
def rsiGate (cfg : Option RsiConfiguration) (d : DataPoint) (pc : Bool × Bool) : Bool × Bool :=
  match cfg with
  | none => pc
  | some r =>
    match dpField d r.rsi with
    | some x =>
      let put := if pc.1 && decide (x ≤ r.overbought) then false else pc.1
      let call := if pc.2 && decide (x ≥ r.oversold) then false else pc.2
      (put, call)
    | none => (false, false)

/-- The price-regression-channel block (part_000 lines 190-206). -/
def prChannelGate (cfg : Option PrChannelConfiguration) (d : DataPoint) (pc : Bool × Bool) : Bool × Bool :=
  match cfg with
  | none => pc
  | some pr =>
    if jsTruthy (dpField d pr.upper) && jsTruthy (dpField d pr.lower) then
      let put :=
        if pc.1 && (!jsTruthy (dpField d pr.upper) || decide (dpVal d "high" ≤ dpVal d pr.upper))
        then false else pc.1
      let call :=
        if pc.2 && (!jsTruthy (dpField d pr.lower) || decide (dpVal d "low" ≥ dpVal d pr.lower))
        then false else pc.2
      (put, call)
    else (false, false)

/-- The trend-regression block (part_000 lines 207-223). -/
def trendPrChannelGate (cfg : Option TrendPrChannelConfiguration) (d : DataPoint)
    (prev : Option DataPoint) (pc : Bool × Bool) : Bool × Bool :=
  match cfg with
  | none => pc
  | some t =>
    match prev with
    | some p =>
      if jsTruthy (dpField d t.regression) && jsTruthy (dpField p t.regression) then
        let put :=
          if pc.1 && decide (dpVal d t.regression > dpVal p t.regression) then false else pc.1
        let call :=
          if pc.2 && decide (dpVal d t.regression < dpVal p t.regression) then false else pc.2
        (put, call)
      else (false, false)
    | none => (false, false)

/-- The per-configuration body of the signal loop (part_000 lines 121-228):
start from `(putThisConfiguration, callThisConfiguration) = (true, true)` and
run the blocks in source order. -/
def putCallThisConfiguration (c : JsConfiguration) (d : DataPoint) (prev : Option DataPoint) :
    Bool × Bool :=
  trendPrChannelGate c.trendPrChannel d prev
    (prChannelGate c.prChannel d
      (rsiGate c.rsi d
        (emaPairGate c.ema50 c.sma13 (dpField d "ema50") (dpField d "sma13")
          (emaPairGate c.ema100 c.ema50 (dpField d "ema100") (dpField d "ema50")
            (emaPairGate c.ema200 c.ema100 (dpField d "ema200") (dpField d "ema100")
              (true, true))))))

/-- The per-tick signal of `ReversalsCombined.prototype.backtest`: inside the
trading-hours filter (hours 0-6 return early, emitting nothing), reset
`putNextTick`/`callNextTick` to false and OR in every configuration's
decision; the PUT/CALL signal for the tick is the resulting pair. -/
def signalsAt (cfgs : List JsConfiguration) (d : DataPoint) (prev : Option DataPoint) :
    Bool × Bool :=
  if 0 ≤ getHours d.timestamp && getHours d.timestamp < 7 then (false, false)
  else
    (cfgs.any (fun c => (putCallThisConfiguration c d prev).1),
     cfgs.any (fun c => (putCallThisConfiguration c d prev).2))

/-! ## Claim theorems -/

/-- C1: the claim says `buildConfigurations` returns one distinct, fully
resolved configuration per point of the Cartesian product, in axis ×
within-axis order.  On the code this fails: every `results->push_back(current)`
pushes the SAME `MapConfiguration*`, so all returned configurations alias one
map holding the last combination.  For a single axis with two candidates
(`sma13 → colA` at index 3, `sma13 → colB` at index 7) the product count 2 is
honoured, but both configurations carry `sma13 = 7`; the claimed result is
`[3, 7]`. -/
theorem buildConfigurations_all_alias_last_point :
    (buildConfigurations [("colA", 3), ("colB", 7)]
        [[[("sma13", Sum.inl "colA")], [("sma13", Sum.inl "colB")]]]).map
      (fun c => c.sma13) = [some 7, some 7] := by
  decide

/-- C2: the claim says `optimize` backtests every row index `0 … dataCount-1`
in ascending order and that the progress display does not change which rows
are processed.  On the code this fails: `percentage = (++i / …)` pre-increments
the loop counter itself, so together with the for-update the counter advances
by two per iteration and only rows 0, 2, 4, … are processed.  With
`dataCount = 2`, row 1 is never backtested. -/
theorem optimize_processes_every_other_row :
    optimizeProcessedRows 2 = [0] ∧ optimizeProcessedRows 5 = [0, 2, 4] := by
  constructor <;>
    simp [optimizeProcessedRows, optimizeRowsFrom]

/-- C4: the claim says that after `loadData` over a non-empty row sequence the
`dataIndex` map holds every field of the first row at its field-iteration
position.  On the code this fails: the guard is `this->dataCount == 0`, but
`dataCount` is the total row count set before the loop (the comment says "for
the first data point only", i.e. the intended guard is the row index), so for
any non-empty sequence the index is never populated.  For one row with fields
`timestamp, open` the map stays empty instead of `timestamp → 0, open → 1`. -/
theorem loadData_never_builds_index :
    loadData [[("timestamp", (1 : ℚ)), ("open", 2)]] =
      Except.ok { dataIndex := [], data := [[1, 2]] } := by
  rfl

/-- C5: the claim says every tick of the input sequence is passed to
`saveTicks` exactly once.  On the code this fails: after the ingestion loop
the remaining window is never flushed, so the ticks of the final segment are
never persisted at all.  A single tick (timestamp 0) stays in the in-memory
window and no batch is ever saved. -/
theorem prepareData_never_persists_tail :
    persistedTicks [0] = [] ∧ (prepareData [0]).cumulativeTicks = [0] := by
  decide

/-- C6: the claim says the strategy-preparation loop performs only in-bounds
writes and ends with one strategy per configuration.  On the code this fails:
`strategies` is a default-constructed empty vector and `strategies[i] = …`
writes through `operator[]` without ever growing it, so already the first
write (index 0 into a vector of size 0) is out of bounds — undefined
behaviour, modelled as `none`. -/
theorem prepareStrategies_writes_out_of_bounds :
    prepareStrategies [toConfiguration [] []] = none := by
  decide

/-- C7: the claim says zero stored rows for the symbol is a fatal error that
aborts before scheduling.  On the code this fails: the guard is
`dataCount < 0` (matching only the driver's -1 failure code), so a count of 0
passes the check — despite the adjacent comment "No data points found" — and
the run proceeds with an empty matrix instead of raising. -/
theorem loadData_accepts_zero_rows :
    loadData [] = Except.ok { dataIndex := [], data := [] } := by
  rfl

/-- C3 counterexample: the claim says a column-name reference with no
`ColumnIndex` entry makes configuration building fail with a fatal
`ConfigurationError` and never yields a configuration with a silently
defaulted index.  With the index `{high → 2}` and one axis whose only
candidate references the absent column "missing", building succeeds and
returns a configuration whose `sma13` is the value-initialized index 0. -/
theorem buildConfigurations_silently_defaults_unresolved :
    ([(("high" : String), (2 : Int))].lookup "missing" = none) ∧
      (buildConfigurations [("high", 2)] [[[("sma13", Sum.inl "missing")]]]).map
        (fun c => c.sma13) = [some 0] := by
  decide

/-- C3 amended: a resolvable column-name reference resolves to the same index
as a direct `ColumnIndex` lookup; an unresolvable one does not raise — it is
silently resolved to 0, the value std::map::operator[] value-initializes for
a missing key — and configuration building proceeds, storing that index in
the built configuration. -/
theorem buildConfigurations_reference_resolution
    (idx : DataIndex) (colName fieldName : String) :
    (buildMapConfigurations idx [[[(fieldName, Sum.inl colName)]]] []).2.lookup fieldName
        = some (Sum.inl (dataIndexAt idx colName)) ∧
    (∀ v, idx.lookup colName = some v → dataIndexAt idx colName = v) ∧
    (idx.lookup colName = none → dataIndexAt idx colName = 0) := by
  refine ⟨?_, ?_, ?_⟩
  · simp [buildMapConfigurations, applyCandidate, mapConfigSet]
  · intro v hv
    simp [dataIndexAt, hv]
  · intro hv
    simp [dataIndexAt, hv]

/-- Witness for the amended C3 theorem: with index `{high → 2}`, the
reference "high" resolves to 2 (the direct lookup) and the absent reference
"missing" resolves to 0. -/
theorem buildConfigurations_reference_resolution_cases :
    dataIndexAt [("high", 2)] "high" = 2 ∧ dataIndexAt [("high", 2)] "missing" = 0 :=
  ⟨(buildConfigurations_reference_resolution [("high", 2)] "high" "sma13").2.1 2 (by decide),
   (buildConfigurations_reference_resolution [("high", 2)] "missing" "sma13").2.2 (by decide)⟩

/-- C9: `getResults` reports `winRate = winCount/(winCount+loseCount)` when
trades occurred and `winRate = 0` when none did; the zero-trade branch
returns before the division, so no division by zero is evaluated. -/
theorem getResults_winRate (s : StrategyState) :
    (s.winCount + s.loseCount = 0 → (getResults s).winRate = 0) ∧
    (s.winCount + s.loseCount ≠ 0 →
      (getResults s).winRate = (s.winCount : ℚ) / ((s.winCount : ℚ) + (s.loseCount : ℚ))) := by
  constructor <;> intro h <;> simp [getResults, getWinRate, h]

/-- Witness for the C9 theorem: one win and one loss give winRate 1/2, and a
fresh state with no trades gives winRate 0. -/
theorem getResults_winRate_cases :
    (getResults { winCount := 1, loseCount := 1 }).winRate = 1 / 2 ∧
    (getResults {}).winRate = 0 := by
  constructor
  · have h := (getResults_winRate { winCount := 1, loseCount := 1 }).2 (by decide)
    rw [h]
    norm_num
  · exact (getResults_winRate {}).1 rfl

/-! ### C8: the PUT gate of ReversalsCombined

Each block of the signal loop only ever clears `putThisConfiguration`, never
sets it, so once the first moving-average block has cleared the put side the
final decision is cleared as well. -/

/-- A moving-average block never revives a cleared put side. -/
theorem emaPairGate_fst_mono (g1 g2 : Bool) (v1 v2 : Option ℚ) (pc : Bool × Bool)
    (h : pc.1 = false) : (emaPairGate g1 g2 v1 v2 pc).1 = false := by
  obtain ⟨p, q⟩ := pc
  simp only at h
  subst h
  simp only [emaPairGate]
  split
  · split <;> simp
  · rfl

/-- The RSI block never revives a cleared put side. -/
theorem rsiGate_fst_mono (cfg : Option RsiConfiguration) (d : DataPoint) (pc : Bool × Bool)
    (h : pc.1 = false) : (rsiGate cfg d pc).1 = false := by
  obtain ⟨p, q⟩ := pc
  simp only at h
  subst h
  cases cfg with
  | none => rfl
  | some r =>
    simp only [rsiGate]
    cases dpField d r.rsi <;> simp

/-- The price-channel block never revives a cleared put side. -/
theorem prChannelGate_fst_mono (cfg : Option PrChannelConfiguration) (d : DataPoint)
    (pc : Bool × Bool) (h : pc.1 = false) : (prChannelGate cfg d pc).1 = false := by
  obtain ⟨p, q⟩ := pc
  simp only at h
  subst h
  cases cfg with
  | none => rfl
  | some pr =>
    simp only [prChannelGate]
    split <;> simp

/-- The trend-channel block never revives a cleared put side. -/
theorem trendPrChannelGate_fst_mono (cfg : Option TrendPrChannelConfiguration) (d : DataPoint)
    (prev : Option DataPoint) (pc : Bool × Bool) (h : pc.1 = false) :
    (trendPrChannelGate cfg d prev pc).1 = false := by
  obtain ⟨p, q⟩ := pc
  simp only at h
  subst h
  cases cfg with
  | none => rfl
  | some t =>
    cases prev with
    | none => rfl
    | some p2 =>
      simp only [trendPrChannelGate]
      split <;> simp

/-- The first moving-average block clears the put side whenever both gates
are set and the data point's ema200 is strictly below its ema100 (a missing
or zero value clears it through the truthiness check instead). -/
theorem emaPairGate_clears_put_of_lt (a b : ℚ) (hab : a < b) :
    (emaPairGate true true (some a) (some b) (true, true)).1 = false := by
  simp only [emaPairGate, jsTruthy]
  by_cases ha : a = 0
  · simp [ha]
  · by_cases hb : b = 0
    · simp [ha, hb]
    · simp [ha, hb, hab]

/-- C8 amended: the claim has the downtrend ordering reversed.  The code's
downtrend gate clears the put side when `ema200 < ema100` (its comment reads
"determine if a downtrend is not occurring"), i.e. a PUT requires
`ema200 ≥ ema100 ≥ ema50 ≥ sma13`; the claim's premise `ema200 ≥ ema100`
therefore permits a PUT (see the counterexample), while `ema200 < ema100`
forbids one.  Amended statement: for every configuration list whose members
all gate on ema200 and ema100, a tick whose data point carries
`ema200 < ema100` never signals a PUT. -/
theorem reversalsCombined_no_put_when_ema200_below_ema100
    (cfgs : List JsConfiguration) (d : DataPoint) (prev : Option DataPoint) (a b : ℚ)
    (hall : ∀ c ∈ cfgs, c.ema200 = true ∧ c.ema100 = true)
    (h200 : dpField d "ema200" = some a) (h100 : dpField d "ema100" = some b)
    (hab : a < b) :
    (signalsAt cfgs d prev).1 = false := by
  unfold signalsAt
  split
  · rfl
  · simp only [List.any_eq_false, Bool.not_eq_true]
    intro c hc
    obtain ⟨he200, he100⟩ := hall c hc
    have hfirst :
        (emaPairGate c.ema200 c.ema100 (dpField d "ema200") (dpField d "ema100")
            (true, true)).1 = false := by
      rw [he200, he100, h200, h100]
      exact emaPairGate_clears_put_of_lt a b hab
    unfold putCallThisConfiguration
    exact trendPrChannelGate_fst_mono _ _ _ _
      (prChannelGate_fst_mono _ _ _
        (rsiGate_fst_mono _ _ _
          (emaPairGate_fst_mono _ _ _ _ _
            (emaPairGate_fst_mono _ _ _ _ _ hfirst))))

/-- Witness for the amended C8 theorem: a configuration gating on all four
moving averages, at 08:00 with `ema200 = 1 < ema100 = 2`, signals no PUT. -/
theorem reversalsCombined_no_put_case :
    (signalsAt [{ ema200 := true, ema100 := true, ema50 := true, sma13 := true }]
        ⟨8 * 3600000, [("ema200", 1), ("ema100", 2), ("ema50", 2), ("sma13", 1)]⟩ none).1
      = false :=
  reversalsCombined_no_put_when_ema200_below_ema100
    [{ ema200 := true, ema100 := true, ema50 := true, sma13 := true }]
    ⟨8 * 3600000, [("ema200", 1), ("ema100", 2), ("ema50", 2), ("sma13", 1)]⟩
    none 1 2 (by decide) (by decide) (by decide) (by norm_num)

/-- C8 counterexample: the claim as stated — "given a tick where
`ema200 ≥ ema100`, no PUT is opened that tick" — is false on the code: with
all four moving-average gates set and a tick at 08:00 carrying the genuine
downtrend ordering `ema200 = 4 > ema100 = 3 > ema50 = 2 > sma13 = 1`, the
put side survives every block and a PUT is signalled. -/
theorem reversalsCombined_put_despite_ema200_ge_ema100 :
    dpVal ⟨8 * 3600000, [("ema200", 4), ("ema100", 3), ("ema50", 2), ("sma13", 1)]⟩ "ema200" ≥
        dpVal ⟨8 * 3600000, [("ema200", 4), ("ema100", 3), ("ema50", 2), ("sma13", 1)]⟩ "ema100" ∧
      (signalsAt [{ ema200 := true, ema100 := true, ema50 := true, sma13 := true }]
          ⟨8 * 3600000, [("ema200", 4), ("ema100", 3), ("ema50", 2), ("sma13", 1)]⟩ none).1
        = true := by
  decide

/-! ### C10: win/lose counters of `closeExpiredPositions` -/

/-- One settlement step increments winCount exactly for an expired position
whose profit/loss strictly exceeds its investment. -/
theorem closePositionStep_winCount (s : StrategyState) (p : Position) :
    (closePositionStep s p).winCount =
      s.winCount + (if p.expired && decide (p.profitLoss > p.investment) then 1 else 0) := by
  cases hp : p.expired <;>
    simp only [closePositionStep, hp, Bool.false_and, Bool.true_and, if_false] <;>
    split_ifs <;>
    simp_all <;>
    linarith

/-- One settlement step increments loseCount exactly for an expired position
whose profit/loss is exactly 0. -/
theorem closePositionStep_loseCount (s : StrategyState) (p : Position) :
    (closePositionStep s p).loseCount =
      s.loseCount + (if p.expired && decide (p.profitLoss = 0) then 1 else 0) := by
  cases hp : p.expired <;>
    simp only [closePositionStep, hp, Bool.false_and, Bool.true_and, if_false] <;>
    split_ifs <;>
    simp_all

/-- Auxiliary count form of the winCount characterization over a position
list. -/
theorem closeExpiredPositions_winCount (s : StrategyState) (ps : List Position) :
    (closeExpiredPositions s ps).winCount =
      s.winCount +
        (ps.filter (fun p => p.expired && decide (p.profitLoss > p.investment))).length := by
  induction ps generalizing s with
  | nil => simp [closeExpiredPositions]
  | cons p rest ih =>
    simp only [closeExpiredPositions, List.foldl_cons] at *
    rw [ih (closePositionStep s p), closePositionStep_winCount]
    by_cases h : p.expired && decide (p.profitLoss > p.investment) <;>
      simp [List.filter_cons, h] <;> omega

/-- Auxiliary count form of the loseCount characterization over a position
list. -/
theorem closeExpiredPositions_loseCount (s : StrategyState) (ps : List Position) :
    (closeExpiredPositions s ps).loseCount =
      s.loseCount +
        (ps.filter (fun p => p.expired && decide (p.profitLoss = 0))).length := by
  induction ps generalizing s with
  | nil => simp [closeExpiredPositions]
  | cons p rest ih =>
    simp only [closeExpiredPositions, List.foldl_cons] at *
    rw [ih (closePositionStep s p), closePositionStep_loseCount]
    by_cases h : p.expired && decide (p.profitLoss = 0) <;>
      simp [List.filter_cons, h] <;> omega

/-- C10: over any settlement pass, winCount grows by exactly the number of
expired positions whose profit/loss strictly exceeds their investment, and
loseCount by exactly the number of expired positions whose profit/loss is
exactly 0 — so a settled position with profit/loss strictly between 0 and
its investment increments neither counter, and (third conjunct) a pass
settling one such position leaves tradeCount = winCount + loseCount at 0,
strictly below the number of settled positions. -/
theorem closeExpiredPositions_counters (s : StrategyState) (ps : List Position) :
    (closeExpiredPositions s ps).winCount =
        s.winCount +
          (ps.filter (fun p => p.expired && decide (p.profitLoss > p.investment))).length ∧
    (closeExpiredPositions s ps).loseCount =
        s.loseCount +
          (ps.filter (fun p => p.expired && decide (p.profitLoss = 0))).length ∧
    (closeExpiredPositions {} [{ investment := 2, profitLoss := 1, expired := true }]).winCount +
        (closeExpiredPositions {} [{ investment := 2, profitLoss := 1, expired := true }]).loseCount
      = 0 :=
  ⟨closeExpiredPositions_winCount s ps, closeExpiredPositions_loseCount s ps, by decide⟩

end ForexBacktesting
